import Mathlib

/-!
Shallow embedding of `taiga_contrib_ldap_auth_ext/connector.py`.

The module talks to an external LDAP directory through the `ldap3` library.
We embed the connector's own logic faithfully and model the external world
(the directory server) as an oracle: a pair of functions saying how the
server answers a connection/bind attempt and a search.  Python byte strings
are lists of naturals, Python exceptions are an explicit error type, and the
network interactions performed by the connector are recorded in a trace of
events so that properties about which binds and searches happen (and with
which parameters) can be stated.
-/

namespace LdapAuth

/-- Python byte strings (`bytes`): a list of byte values. -/
abbrev Bytes := List Nat

/-- Decoder for UTF-8 byte sequences, modelling Python's strict
`bytes.decode("utf-8")`: rejects invalid lead/continuation bytes, overlong
encodings, surrogate code points and code points above U+10FFFF.  Returns
`none` exactly when Python would raise `UnicodeDecodeError`. -/
def utf8DecodeList : List Nat → Option (List Char)
  | [] => some []
  | b :: rest =>
    if b < 0x80 then
      (utf8DecodeList rest).map (Char.ofNat b :: ·)
    else if b < 0xC2 then
      none
    else if b < 0xE0 then
      match rest with
      | b1 :: rest2 =>
        if 0x80 ≤ b1 && b1 < 0xC0 then
          (utf8DecodeList rest2).map (Char.ofNat ((b - 0xC0) * 0x40 + (b1 - 0x80)) :: ·)
        else none
      | [] => none
    else if b < 0xF0 then
      match rest with
      | b1 :: b2 :: rest2 =>
        if (0x80 ≤ b1 && b1 < 0xC0) && (0x80 ≤ b2 && b2 < 0xC0) then
          let cp := (b - 0xE0) * 0x1000 + (b1 - 0x80) * 0x40 + (b2 - 0x80)
          if cp < 0x800 || (0xD800 ≤ cp && cp < 0xE000) then none
          else (utf8DecodeList rest2).map (Char.ofNat cp :: ·)
        else none
      | _ => none
    else if b < 0xF5 then
      match rest with
      | b1 :: b2 :: b3 :: rest2 =>
        if (0x80 ≤ b1 && b1 < 0xC0) && ((0x80 ≤ b2 && b2 < 0xC0) && (0x80 ≤ b3 && b3 < 0xC0)) then
          let cp := (b - 0xF0) * 0x40000 + (b1 - 0x80) * 0x1000 + (b2 - 0x80) * 0x40 + (b3 - 0x80)
          if cp < 0x10000 || 0x110000 ≤ cp then none
          else (utf8DecodeList rest2).map (Char.ofNat cp :: ·)
        else none
      | _ => none
    else none

/-- Python `bs.decode("utf-8")` as an `Option`-valued function on bytes. -/
def utf8Decode (bs : Bytes) : Option String :=
  (utf8DecodeList bs).map List.asString

/-- UTF-8 bytes of an ASCII string; used to build concrete directory entries. -/
def bytesOfAscii (s : String) : Bytes :=
  s.data.map Char.toNat

/-- Replace every occurrence of the character `a` in a character list by the
replacement list `r` (Python `str.replace` with a one-character needle). -/
def replaceChar : List Char → Char → List Char → List Char
  | [], _, _ => []
  | x :: xs, a, r => (if x = a then r else [x]) ++ replaceChar xs a r

/-- Modelled from the spec and RFC 4515: the character-list core of
`ldap3.utils.conv.escape_filter_chars`, the escaping function the connector
imports from the external `ldap3` library (it is not part of this
repository).  It rewrites, in order, the backslash, `*`, `(`, `)` and the
NUL character to their hex escapes. -/
def escapedChars (text : List Char) : List Char :=
  replaceChar
    (replaceChar
      (replaceChar
        (replaceChar
          (replaceChar text '\\' ['\\', '5', 'c'])
          '*' ['\\', '2', 'a'])
        '(' ['\\', '2', '8'])
      ')' ['\\', '2', '9'])
    (Char.ofNat 0) ['\\', '0', '0']

/-- Modelled from the spec and RFC 4515: `ldap3.utils.conv.escape_filter_chars`
as a function on strings. -/
def escape_filter_chars (text : String) : String :=
  ⟨escapedChars text.data⟩

/-- Python `needle in haystack` on strings: substring containment. -/
def strContains (haystack needle : String) : Bool :=
  (List.range (haystack.data.length + 1)).any fun i =>
    needle.data.isPrefixOf (haystack.data.drop i)

/-- The module-level configuration read from Django settings at import time
(`getattr(settings, NAME, default)`); the field defaults are the defaults in
the source. -/
structure Config where
  SERVER : String := "localhost"
  PORT : String := "389"
  SEARCH_BASE : String := ""
  SEARCH_FILTER_ADDITIONAL : String := ""
  BIND_DN : String := ""
  BIND_PASSWORD : String := ""
  USERNAME_ATTRIBUTE : String := "uid"
  EMAIL_ATTRIBUTE : String := "mail"
  FULL_NAME_ATTRIBUTE : String := "displayName"
  TLS_CERTS : String := ""
  START_TLS : Bool := false
deriving DecidableEq, Repr

/-- The `ldap3` authentication mechanism constants used by the connector. -/
inductive Authentication
  | SIMPLE
  | ANONYMOUS
deriving DecidableEq, Repr

/-- The `ldap3` auto-bind constants used by the connector. -/
inductive AutoBind
  | NO_TLS
  | TLS_BEFORE_BIND
deriving DecidableEq, Repr

/-- The `ldap3` client strategy constant used by the connector. -/
inductive Strategy
  | SYNC
deriving DecidableEq, Repr

/-- The `ldap3` search scope constant used by the connector. -/
inductive Scope
  | SUBTREE
deriving DecidableEq, Repr

/-- The `ldap3` server-info constant used by the connector. -/
inductive GetInfo
  | NONE
deriving DecidableEq, Repr

/-- An `ldap3.Server` transport descriptor, with the arguments `_get_server`
passes to its constructor. -/
structure Server where
  host : String
  port : String
  get_info : GetInfo
  use_ssl : Bool
  tls : Option String
deriving DecidableEq, Repr

/-- Python exceptions that the connector can raise or observe.  The first two
are the connector's own error classes; the others are built-in Python
exceptions that can escape from it. -/
inductive PyError
  | ldapConnectionError (error_message : String)
  | ldapUserLoginError (error_message : String)
  | unboundLocalError (name : String)
  | unicodeDecodeError
deriving DecidableEq, Repr

/-- The `str(e)` rendering used when an exception is interpolated into an
error message with `"%s" % e`. -/
def pyExcMessage : PyError → String
  | .ldapConnectionError m => m
  | .ldapUserLoginError m => m
  | .unboundLocalError n => "local variable " ++ n ++ " referenced before assignment"
  | .unicodeDecodeError => "invalid utf-8 sequence"

/-- The `Server` object that the body of `_get_server` constructs (before
discarding it): host and port from configuration, `use_ssl` from a
case-insensitive `ldaps://` prefix check, `tls` from `TLS_CERTS or None`. -/
def _constructed_server (cfg : Config) : Server :=
  { host := cfg.SERVER
    port := cfg.PORT
    get_info := .NONE
    use_ssl := (cfg.SERVER.toLower).startsWith "ldaps://"
    tls := if cfg.TLS_CERTS ≠ "" then some cfg.TLS_CERTS else none }

/-- Embedding of `_get_server`.  The Python function assigns the constructed
`Server` to a local variable but its body contains no `return` statement, so
the function falls off the end and returns `None` on every call. -/
def _get_server (cfg : Config) : Option Server :=
  let _server := _constructed_server cfg
  none

/-- The keyword arguments `_get_auth_details` returns for the search bind. -/
structure AuthDetails where
  user : Option String
  password : Option String
  authentication : Authentication
deriving DecidableEq, Repr

/-- Embedding of `_get_auth_details`.  In the templated branch (a configured
`BIND_DN` containing `<username>`) the line `password = password` reads the
local variable `password` before any assignment to it — the function has no
`password` parameter — so Python raises `UnboundLocalError` there. -/
def _get_auth_details (cfg : Config) (username_sanitized : String) :
    Except PyError AuthDetails :=
  if cfg.BIND_DN ≠ "" && strContains cfg.BIND_DN "<username>" then
    let _user := cfg.BIND_DN.replace "<username>" username_sanitized
    .error (.unboundLocalError "password")
  else if cfg.BIND_DN ≠ "" then
    .ok { user := some cfg.BIND_DN, password := some cfg.BIND_PASSWORD,
          authentication := .SIMPLE }
  else
    .ok { user := none, password := none, authentication := .ANONYMOUS }

/-- One element of `ldap3`'s `Connection.response` list: a dictionary that may
or may not carry the `raw_attributes` and `dn` keys (search references, for
example, carry neither). -/
structure ResponseItem where
  has_raw_attributes : Bool
  has_dn : Bool
  dn : String
  raw_attributes : List (String × List Bytes)
deriving DecidableEq, Repr

/-- Python `dict.get` on the raw-attributes dictionary. -/
def lookupAttr (ras : List (String × List Bytes)) (k : String) : Option (List Bytes) :=
  (ras.find? (fun kv => kv.1 == k)).map (fun kv => kv.2)

/-- Python truthiness of `raw_attributes.get(X)`: `None` and the empty list
are falsy, a non-empty list of values is truthy (even if its only value is
the empty byte string). -/
def pyTruthy : Option (List Bytes) → Bool
  | some (_ :: _) => true
  | _ => false

/-- Python `raw_attributes.get(X)[0]`; only evaluated behind the truthiness
guard, so the default is never reached on the guarded paths. -/
def firstValue : Option (List Bytes) → Bytes
  | some (b :: _) => b
  | _ => []

/-- The arguments `login` passes to the `ldap3.Connection` constructor. -/
structure BindRequest where
  server : Option Server
  auto_bind : AutoBind
  client_strategy : Strategy
  check_names : Bool
  user : Option String
  password : Option String
  authentication : Authentication
deriving DecidableEq, Repr

/-- The arguments `login` passes to `Connection.search`. -/
structure SearchRequest where
  search_base : String
  search_filter : String
  search_scope : Scope
  attributes : List String
  paged_size : Nat
deriving DecidableEq, Repr

/-- The directory server as an oracle: how a connection/bind attempt with the
given arguments ends (an `ldap3.Connection` construction with `auto_bind`
either succeeds or raises, rendered as a message string), and how a search
ends (an exception message, or the resulting response list). -/
structure DirectoryOracle where
  connect : BindRequest → Except String Unit
  search : SearchRequest → Except String (List ResponseItem)

/-- Trace of the connector's interactions with the directory during one
`login` call.  The two `Connection` constructions in the source are distinct
call sites, recorded separately, each with the outcome (`ok = true` when the
session was established).  `unbind` would record an explicit session
release; the source contains no `unbind`/`close` call, so `login` never
emits it. -/
inductive Event
  | searchBindConn (req : BindRequest) (ok : Bool)
  | searchOp (req : SearchRequest) (ok : Bool)
  | verifyBindConn (req : BindRequest) (ok : Bool)
  | unbind
deriving DecidableEq, Repr

/-- Is this event the verification-bind `Connection` call (attempted, whatever
its outcome)? -/
def isVerifyBindEvent : Event → Bool
  | .verifyBindConn _ _ => true
  | _ => false

/-- Is this event a successfully established directory session? -/
def isOpenedSession : Event → Bool
  | .searchBindConn _ ok => ok
  | .verifyBindConn _ ok => ok
  | _ => false

/-- Is this event an explicit session release? -/
def isReleaseEvent : Event → Bool
  | .unbind => true
  | _ => false

/-- The search request of a search event, if any. -/
def getSearchReq : Event → Option SearchRequest
  | .searchOp r _ => some r
  | _ => none

/-- Did this connection attempt succeed (no exception raised)? -/
def exceptOk : Except String Unit → Bool
  | .ok _ => true
  | .error _ => false

/-- The search filter built at lines 121–124 of the source: the two-clause OR
over the sanitized value, wrapped with the additional fragment when one is
configured (Python truthiness: a non-empty string). -/
def build_search_filter (cfg : Config) (username_or_email_sanitized : String) : String :=
  let search_filter := "(|(" ++ cfg.USERNAME_ATTRIBUTE ++ "=" ++ username_or_email_sanitized
    ++ ")(" ++ cfg.EMAIL_ATTRIBUTE ++ "=" ++ username_or_email_sanitized ++ "))"
  if cfg.SEARCH_FILTER_ADDITIONAL ≠ "" then
    "(&" ++ search_filter ++ cfg.SEARCH_FILTER_ADDITIONAL ++ ")"
  else
    search_filter

/-- Embedding of `login`.  Returns the Python outcome (the returned triple or
the raised exception) together with the trace of directory interactions.
Notes tying the embedding to the source: `_get_auth_details` is called while
evaluating the arguments of the first `Connection` call, i.e. inside the
first `try`, so its `UnboundLocalError` is converted to `LDAPConnectionError`;
the three attribute decodes happen outside every `try`; the expression
`str(bytes(dn, "utf-8"), encoding="utf-8")` is the identity on the `dn`
string (it round-trips through UTF-8) and sits inside the final `try`. -/
def login (cfg : Config) (oracle : DirectoryOracle) (username_or_email : String)
    (password : String) : Except PyError (String × String × String) × List Event :=
  let server := _get_server cfg
  let username_or_email_sanitized := escape_filter_chars username_or_email
  let auto_bind := if cfg.START_TLS then AutoBind.TLS_BEFORE_BIND else AutoBind.NO_TLS
  match _get_auth_details cfg username_or_email_sanitized with
  | .error e =>
    (.error (.ldapConnectionError ("Error connecting to LDAP server: " ++ pyExcMessage e)), [])
  | .ok auth =>
    let bindReq : BindRequest :=
      { server := server, auto_bind := auto_bind, client_strategy := .SYNC,
        check_names := true, user := auth.user, password := auth.password,
        authentication := auth.authentication }
    match oracle.connect bindReq with
    | .error msg =>
      (.error (.ldapConnectionError ("Error connecting to LDAP server: " ++ msg)),
       [.searchBindConn bindReq false])
    | .ok _ =>
      let trace := [Event.searchBindConn bindReq true]
      let searchReq : SearchRequest :=
        { search_base := cfg.SEARCH_BASE,
          search_filter := build_search_filter cfg username_or_email_sanitized,
          search_scope := .SUBTREE,
          attributes := [cfg.USERNAME_ATTRIBUTE, cfg.EMAIL_ATTRIBUTE, cfg.FULL_NAME_ATTRIBUTE],
          paged_size := 5 }
      match oracle.search searchReq with
      | .error msg =>
        (.error (.ldapUserLoginError ("LDAP login incorrect: " ++ msg)),
         trace ++ [.searchOp searchReq false])
      | .ok rawResponse =>
        let trace := trace ++ [Event.searchOp searchReq true]
        let response := rawResponse.filter (fun r => r.has_raw_attributes && r.has_dn)
        if response.isEmpty then
          (.error (.ldapUserLoginError "LDAP login not found"), trace)
        else if 1 < response.length then
          (.error (.ldapUserLoginError "LDAP login could not be determined."), trace)
        else
          let entry := response.headD ⟨false, false, "", []⟩
          let raw_attributes := entry.raw_attributes
          let vu := lookupAttr raw_attributes cfg.USERNAME_ATTRIBUTE
          let ve := lookupAttr raw_attributes cfg.EMAIL_ATTRIBUTE
          let vf := lookupAttr raw_attributes cfg.FULL_NAME_ATTRIBUTE
          if !(pyTruthy vu && pyTruthy ve && pyTruthy vf) then
            (.error (.ldapUserLoginError "LDAP login is invalid."), trace)
          else
            match utf8Decode (firstValue vu) with
            | none => (.error .unicodeDecodeError, trace)
            | some username =>
              match utf8Decode (firstValue ve) with
              | none => (.error .unicodeDecodeError, trace)
              | some email =>
                match utf8Decode (firstValue vf) with
                | none => (.error .unicodeDecodeError, trace)
                | some full_name =>
                  let dn := entry.dn
                  let verifyReq : BindRequest :=
                    { server := server, auto_bind := auto_bind, client_strategy := .SYNC,
                      check_names := true, user := some dn, password := some password,
                      authentication := .SIMPLE }
                  match oracle.connect verifyReq with
                  | .error msg =>
                    (.error (.ldapUserLoginError ("LDAP bind failed: " ++ msg)),
                     trace ++ [.verifyBindConn verifyReq false])
                  | .ok _ =>
                    (.ok (username, email, full_name),
                     trace ++ [.verifyBindConn verifyReq true])

/-- The configuration with every setting at its source default (anonymous
bind, attributes `uid` / `mail` / `displayName`, no additional filter). -/
def defaultConfig : Config := {}

/-- A configuration whose bind DN is a template containing the `<username>`
placeholder (the `TemplatedUserBind` credential policy). -/
def templatedConfig : Config :=
  { BIND_DN := "uid=<username>,dc=example,dc=com" }

/-- A directory oracle on which every connection attempt succeeds and every
search returns the given response list. -/
def oracleAllOk (raw : List ResponseItem) : DirectoryOracle :=
  { connect := fun _ => .ok (), search := fun _ => .ok raw }

/-- A fully-attributed directory entry for the user alice (Scenario A of the
spec). -/
def aliceEntry : ResponseItem :=
  { has_raw_attributes := true
    has_dn := true
    dn := "uid=alice,dc=example,dc=com"
    raw_attributes :=
      [("uid", [bytesOfAscii "alice"]),
       ("mail", [bytesOfAscii "alice@example.com"]),
       ("displayName", [bytesOfAscii "Alice A"])] }

/-- An entry whose `uid` attribute is present with a single value that is the
empty byte string (`[b""]`): truthy as a list, empty as a value. -/
def emptyUidEntry : ResponseItem :=
  { has_raw_attributes := true
    has_dn := true
    dn := "uid=,dc=example,dc=com"
    raw_attributes :=
      [("uid", [[]]),
       ("mail", [bytesOfAscii "x@example.com"]),
       ("displayName", [bytesOfAscii "X"])] }

/-- An entry whose `uid` attribute's first value is the byte `0xFF`, which is
not valid UTF-8. -/
def badUtf8Entry : ResponseItem :=
  { has_raw_attributes := true
    has_dn := true
    dn := "uid=bad,dc=example,dc=com"
    raw_attributes :=
      [("uid", [[0xFF]]),
       ("mail", [bytesOfAscii "bad@example.com"]),
       ("displayName", [bytesOfAscii "Bad"])] }

/-- Membership in the result of a single-character replacement: each output
character is either part of the replacement text or an untouched input
character different from the replaced one. -/
theorem mem_replaceChar {c a : Char} {r s : List Char}
    (h : c ∈ replaceChar s a r) : c ∈ r ∨ (c ∈ s ∧ c ≠ a) := by
  induction s with
  | nil => simp [replaceChar] at h
  | cons x xs ih =>
    simp only [replaceChar, List.mem_append] at h
    rcases h with h | h
    · split at h
      · exact Or.inl h
      · rename_i hx
        rcases List.mem_singleton.mp h with rfl
        exact Or.inr ⟨List.mem_cons_self _ _, hx⟩
    · rcases ih h with h' | ⟨hm, hne⟩
      · exact Or.inl h'
      · exact Or.inr ⟨List.mem_cons_of_mem _ hm, hne⟩

/-- No character of the escaped output is an unescaped filter metacharacter:
`(`, `)`, `*` and NUL cannot survive `escapedChars`. -/
theorem mem_escapedChars {c : Char} {t : List Char} (h : c ∈ escapedChars t) :
    c ≠ '(' ∧ c ≠ ')' ∧ c ≠ '*' ∧ c ≠ Char.ofNat 0 := by
  unfold escapedChars at h
  rcases mem_replaceChar h with h0 | ⟨h, hn0⟩
  · fin_cases h0 <;> decide
  rcases mem_replaceChar h with h9 | ⟨h, hn9⟩
  · fin_cases h9 <;> decide
  rcases mem_replaceChar h with h8 | ⟨h, hn8⟩
  · fin_cases h8 <;> decide
  rcases mem_replaceChar h with ha | ⟨h, hna⟩
  · fin_cases ha <;> decide
  rcases mem_replaceChar h with hb | ⟨h, hnb⟩
  · fin_cases hb <;> decide
  exact ⟨hn8, hn9, hna, hn0⟩

/-- C1: the claim states that in the templated-bind branch the search-bind
secret is the caller-supplied password threaded through from `login`.  The
code does not do this: `_get_auth_details` receives only the sanitized
username, and its line `password = password` reads the local variable
`password` before assignment, so Python raises `UnboundLocalError`; the
surrounding `try` in `login` converts it into an `LDAPConnectionError`.
This theorem evaluates the code at a failing input (a templated bind DN),
exhibiting the bug. -/
theorem C1_templated_bind_secret_bug :
    _get_auth_details templatedConfig "alice" = .error (.unboundLocalError "password") ∧
    (login templatedConfig (oracleAllOk []) "alice" "hunter2").1 =
      .error (.ldapConnectionError
        ("Error connecting to LDAP server: " ++
          pyExcMessage (.unboundLocalError "password"))) :=
  ⟨rfl, rfl⟩

/-- C2: the claim states that `_get_server` returns the configured `Server`
transport handle and that `login` uses it for both sessions.  The Python
function constructs the `Server` but its body has no `return` statement, so
it returns `None` for every configuration: the constructed handle is never
returned. -/
theorem C2_get_server_returns_none (cfg : Config) :
    _get_server cfg = none :=
  rfl

/-- C9: the claim states that every directory session opened during a `login`
call is released before the call terminates.  The source contains no
`unbind`/`close` call at all: on the successful exit path two sessions are
opened and none is released. -/
theorem C9_sessions_never_released :
    ((login defaultConfig (oracleAllOk [aliceEntry]) "alice" "pw").2.filter
        isOpenedSession).length = 2 ∧
    ((login defaultConfig (oracleAllOk [aliceEntry]) "alice" "pw").2.filter
        isReleaseEvent).length = 0 ∧
    (login defaultConfig (oracleAllOk [aliceEntry]) "alice" "pw").1 =
      .ok ("alice", "alice@example.com", "Alice A") :=
  ⟨rfl, rfl, rfl⟩

/-- C3: directory-filter metacharacters of the input are escaped before the
value is embedded in the search filter, and a crafted input cannot broaden
the match: no character of the sanitized value is a raw `(`, `)`, `*` or
NUL, and (for the default attribute configuration, no additional fragment)
the generated filter always has exactly the three opening and three closing
parentheses of the fixed two-clause OR template, whatever the input. -/
theorem C3_no_filter_injection (u : String) :
    (∀ c ∈ (escape_filter_chars u).data,
      c ≠ '(' ∧ c ≠ ')' ∧ c ≠ '*' ∧ c ≠ Char.ofNat 0) ∧
    (build_search_filter defaultConfig (escape_filter_chars u)).data.count '(' = 3 ∧
    (build_search_filter defaultConfig (escape_filter_chars u)).data.count ')' = 3 := by
  have hmeta : ∀ c ∈ (escape_filter_chars u).data,
      c ≠ '(' ∧ c ≠ ')' ∧ c ≠ '*' ∧ c ≠ Char.ofNat 0 :=
    fun _ hc => mem_escapedChars hc
  have hopen : (escape_filter_chars u).data.count '(' = 0 :=
    List.count_eq_zero.mpr fun hmem => (hmeta _ hmem).1 rfl
  have hclose : (escape_filter_chars u).data.count ')' = 0 :=
    List.count_eq_zero.mpr fun hmem => (hmeta _ hmem).2.1 rfl
  refine ⟨hmeta, ?_, ?_⟩
  · simp [build_search_filter, defaultConfig, String.data_append, List.count_append,
      hopen]
  · simp [build_search_filter, defaultConfig, String.data_append, List.count_append,
      hclose]

/-- C4: after the defensive eligibility filter, zero eligible entries fail
with `LDAP login not found` and more than one eligible entry fails with
`LDAP login could not be determined.`; in both cases no verification bind is
attempted (the directory here accepts every connection and answers the
search with the given raw response list, so any verification bind would have
succeeded had it been attempted). -/
theorem C4_cardinality_rejection (cfg : Config) (u p : String)
    (raw : List ResponseItem) (auth : AuthDetails)
    (hauth : _get_auth_details cfg (escape_filter_chars u) = .ok auth) :
    (raw.filter (fun r => r.has_raw_attributes && r.has_dn) = [] →
      (login cfg (oracleAllOk raw) u p).1 =
        .error (.ldapUserLoginError "LDAP login not found") ∧
      (login cfg (oracleAllOk raw) u p).2.filter isVerifyBindEvent = []) ∧
    (1 < (raw.filter (fun r => r.has_raw_attributes && r.has_dn)).length →
      (login cfg (oracleAllOk raw) u p).1 =
        .error (.ldapUserLoginError "LDAP login could not be determined.") ∧
      (login cfg (oracleAllOk raw) u p).2.filter isVerifyBindEvent = []) := by
  constructor
  · intro hfil
    simp [login, oracleAllOk, hauth, hfil, isVerifyBindEvent]
  · intro hlen
    have hne : raw.filter (fun r => r.has_raw_attributes && r.has_dn) ≠ [] := by
      intro h
      rw [h] at hlen
      simp at hlen
    simp [login, oracleAllOk, hauth, hne, hlen, isVerifyBindEvent]

/-- C7: failures are classified by stage.  If establishing the authenticated
search session fails, `login` raises `LDAPConnectionError` with the cause in
the message; if the session is established and the search itself fails,
`login` raises the distinct kind `LDAPUserLoginError` with message
`LDAP login incorrect: ` plus the cause. -/
theorem C7_error_kind_classification (cfg : Config)
    (cOut : BindRequest → Except String Unit)
    (sOut : SearchRequest → Except String (List ResponseItem))
    (u p m : String) (auth : AuthDetails)
    (hauth : _get_auth_details cfg (escape_filter_chars u) = .ok auth) :
    ((∀ req, cOut req = .error m) →
      (login cfg ⟨cOut, sOut⟩ u p).1 =
        .error (.ldapConnectionError ("Error connecting to LDAP server: " ++ m))) ∧
    ((∀ req, cOut req = .ok ()) → (∀ sreq, sOut sreq = .error m) →
      (login cfg ⟨cOut, sOut⟩ u p).1 =
        .error (.ldapUserLoginError ("LDAP login incorrect: " ++ m))) := by
  constructor
  · intro hc
    simp [login, hauth, hc]
  · intro hc hs
    simp [login, hauth, hc, hs]

/-- C8: whenever the authenticated search session is established, exactly one
search is executed, with base the configured search base, whole-subtree
scope, requested attributes exactly the three configured attribute names, a
page-size hint of 5, and the filter `(|(attr_user=v)(attr_email=v))` over
the sanitized value `v`, wrapped as `(&...additional)` when an additional
fragment is configured — whatever the search outcome `searchAnswer` is. -/
theorem C8_search_request_parameters (cfg : Config)
    (sOut : SearchRequest → Except String (List ResponseItem))
    (u p : String) (auth : AuthDetails)
    (hauth : _get_auth_details cfg (escape_filter_chars u) = .ok auth) :
    (login cfg ⟨fun _ => .ok (), sOut⟩ u p).2.filterMap getSearchReq =
      [{ search_base := cfg.SEARCH_BASE,
         search_filter := build_search_filter cfg (escape_filter_chars u),
         search_scope := .SUBTREE,
         attributes := [cfg.USERNAME_ATTRIBUTE, cfg.EMAIL_ATTRIBUTE, cfg.FULL_NAME_ATTRIBUTE],
         paged_size := 5 }] ∧
    build_search_filter cfg (escape_filter_chars u) =
      (if cfg.SEARCH_FILTER_ADDITIONAL ≠ "" then
        "(&" ++ ("(|(" ++ cfg.USERNAME_ATTRIBUTE ++ "=" ++ escape_filter_chars u
          ++ ")(" ++ cfg.EMAIL_ATTRIBUTE ++ "=" ++ escape_filter_chars u ++ "))")
          ++ cfg.SEARCH_FILTER_ADDITIONAL ++ ")"
      else
        "(|(" ++ cfg.USERNAME_ATTRIBUTE ++ "=" ++ escape_filter_chars u
          ++ ")(" ++ cfg.EMAIL_ATTRIBUTE ++ "=" ++ escape_filter_chars u ++ "))") := by
  constructor
  · simp only [login, hauth]
    cases hs : sOut ⟨cfg.SEARCH_BASE, build_search_filter cfg (escape_filter_chars u),
        Scope.SUBTREE, [cfg.USERNAME_ATTRIBUTE, cfg.EMAIL_ATTRIBUTE, cfg.FULL_NAME_ATTRIBUTE],
        5⟩ with
    | error m => simp [hs, getSearchReq]
    | ok rawResponse =>
      simp only [hs]
      repeat' split
      all_goals simp [getSearchReq]
  · simp [build_search_filter]

/-- C5 counterexample: an entry whose `uid` attribute is present with the
single value `b""` lacks a non-empty value for that attribute, yet the call
does not fail with `LDAP login is invalid.` — the code only checks that the
value list is non-empty, so the login succeeds and returns an empty
username. -/
theorem C5_empty_value_passes_gate :
    (login defaultConfig (oracleAllOk [emptyUidEntry]) "x" "pw").1 =
      .ok ("", "x@example.com", "X") ∧
    (login defaultConfig (oracleAllOk [emptyUidEntry]) "x" "pw").1 ≠
      .error (.ldapUserLoginError "LDAP login is invalid.") := by
  refine ⟨rfl, fun h => ?_⟩
  rw [show (login defaultConfig (oracleAllOk [emptyUidEntry]) "x" "pw").1 =
      .ok ("", "x@example.com", "X") from rfl] at h
  exact Except.noConfusion h

/-- C5 amended: for the single eligible entry, if any of the three configured
attributes is missing or has an empty list of values (Python truthiness of
`raw_attributes.get(X)`), the call fails with `LDAP login is invalid.`; an
attribute present with a non-empty value list passes the gate even when its
first value is the empty byte string, and on success the returned triple is
exactly the UTF-8 decoding of each attribute's first value — the decoded
entry data, not the raw input. -/
theorem C5_attribute_gate_and_extraction (cfg : Config) (u p : String)
    (entry : ResponseItem) (auth : AuthDetails)
    (hauth : _get_auth_details cfg (escape_filter_chars u) = .ok auth)
    (helig : (entry.has_raw_attributes && entry.has_dn) = true) :
    ((pyTruthy (lookupAttr entry.raw_attributes cfg.USERNAME_ATTRIBUTE) &&
      pyTruthy (lookupAttr entry.raw_attributes cfg.EMAIL_ATTRIBUTE) &&
      pyTruthy (lookupAttr entry.raw_attributes cfg.FULL_NAME_ATTRIBUTE)) = false →
      (login cfg (oracleAllOk [entry]) u p).1 =
        .error (.ldapUserLoginError "LDAP login is invalid.")) ∧
    (∀ su se sf : String,
      utf8Decode (firstValue (lookupAttr entry.raw_attributes cfg.USERNAME_ATTRIBUTE)) = some su →
      utf8Decode (firstValue (lookupAttr entry.raw_attributes cfg.EMAIL_ATTRIBUTE)) = some se →
      utf8Decode (firstValue (lookupAttr entry.raw_attributes cfg.FULL_NAME_ATTRIBUTE)) = some sf →
      pyTruthy (lookupAttr entry.raw_attributes cfg.USERNAME_ATTRIBUTE) = true →
      pyTruthy (lookupAttr entry.raw_attributes cfg.EMAIL_ATTRIBUTE) = true →
      pyTruthy (lookupAttr entry.raw_attributes cfg.FULL_NAME_ATTRIBUTE) = true →
      (login cfg (oracleAllOk [entry]) u p).1 = .ok (su, se, sf)) := by
  constructor
  · intro hfail
    simp [login, oracleAllOk, hauth, helig, hfail]
  · intro su se sf hdu hde hdf htu hte htf
    simp [login, oracleAllOk, hauth, helig, htu, hte, htf, hdu, hde, hdf]

/-- C6: for a single eligible, fully-attributed entry, exactly one
verification bind is attempted, with identity the entry's distinguished
name and secret the original caller-supplied password `p` (no escaping:
`some p` itself, while the search filter uses `escape_filter_chars u`), as
a SIMPLE bind under the same auto-bind (start-TLS) mode as the search
session; the outcome of that one bind decides the result: success returns
the decoded triple, failure raises `LDAP bind failed` with the cause. -/
theorem C6_single_verification_bind (cfg : Config)
    (cOut : BindRequest → Except String Unit)
    (u p su se sf : String) (entry : ResponseItem) (auth : AuthDetails)
    (hauth : _get_auth_details cfg (escape_filter_chars u) = .ok auth)
    (helig : (entry.has_raw_attributes && entry.has_dn) = true)
    (hconn : cOut { server := _get_server cfg,
                    auto_bind := if cfg.START_TLS then .TLS_BEFORE_BIND else .NO_TLS,
                    client_strategy := .SYNC, check_names := true,
                    user := auth.user, password := auth.password,
                    authentication := auth.authentication } = .ok ())
    (hdu : utf8Decode (firstValue (lookupAttr entry.raw_attributes cfg.USERNAME_ATTRIBUTE)) = some su)
    (hde : utf8Decode (firstValue (lookupAttr entry.raw_attributes cfg.EMAIL_ATTRIBUTE)) = some se)
    (hdf : utf8Decode (firstValue (lookupAttr entry.raw_attributes cfg.FULL_NAME_ATTRIBUTE)) = some sf)
    (htu : pyTruthy (lookupAttr entry.raw_attributes cfg.USERNAME_ATTRIBUTE) = true)
    (hte : pyTruthy (lookupAttr entry.raw_attributes cfg.EMAIL_ATTRIBUTE) = true)
    (htf : pyTruthy (lookupAttr entry.raw_attributes cfg.FULL_NAME_ATTRIBUTE) = true) :
    (login cfg ⟨cOut, fun _ => .ok [entry]⟩ u p).2.filter isVerifyBindEvent =
      [Event.verifyBindConn
        { server := _get_server cfg,
          auto_bind := if cfg.START_TLS then .TLS_BEFORE_BIND else .NO_TLS,
          client_strategy := .SYNC, check_names := true,
          user := some entry.dn, password := some p,
          authentication := .SIMPLE }
        (exceptOk (cOut
          { server := _get_server cfg,
            auto_bind := if cfg.START_TLS then .TLS_BEFORE_BIND else .NO_TLS,
            client_strategy := .SYNC, check_names := true,
            user := some entry.dn, password := some p,
            authentication := .SIMPLE }))] ∧
    (cOut { server := _get_server cfg,
            auto_bind := if cfg.START_TLS then .TLS_BEFORE_BIND else .NO_TLS,
            client_strategy := .SYNC, check_names := true,
            user := some entry.dn, password := some p,
            authentication := .SIMPLE } = .ok () →
      (login cfg ⟨cOut, fun _ => .ok [entry]⟩ u p).1 = .ok (su, se, sf)) ∧
    (∀ m, cOut { server := _get_server cfg,
                 auto_bind := if cfg.START_TLS then .TLS_BEFORE_BIND else .NO_TLS,
                 client_strategy := .SYNC, check_names := true,
                 user := some entry.dn, password := some p,
                 authentication := .SIMPLE } = .error m →
      (login cfg ⟨cOut, fun _ => .ok [entry]⟩ u p).1 =
        .error (.ldapUserLoginError ("LDAP bind failed: " ++ m))) := by
  refine ⟨?_, ?_, ?_⟩
  · cases hv : cOut ⟨_get_server cfg,
        if cfg.START_TLS then AutoBind.TLS_BEFORE_BIND else AutoBind.NO_TLS,
        Strategy.SYNC, true, some entry.dn, some p, Authentication.SIMPLE⟩ with
    | error m =>
      simp [login, hauth, helig, hconn, htu, hte, htf, hdu, hde, hdf, hv,
        isVerifyBindEvent, exceptOk]
    | ok _ =>
      simp [login, hauth, helig, hconn, htu, hte, htf, hdu, hde, hdf, hv,
        isVerifyBindEvent, exceptOk]
  · intro hv
    simp [login, hauth, helig, hconn, htu, hte, htf, hdu, hde, hdf, hv]
  · intro m hv
    simp [login, hauth, helig, hconn, htu, hte, htf, hdu, hde, hdf, hv]

/-- C10: the UTF-8 decoding of the three attribute first-values happens
outside any exception-wrapping block: if any of those byte values is not
valid UTF-8, the login call raises an exception that is neither
`LDAPConnectionError` nor `LDAPUserLoginError` (the distinguished name,
being a Python string already, round-trips through UTF-8 without failing). -/
theorem C10_invalid_utf8_outside_taxonomy (cfg : Config) (u p : String)
    (entry : ResponseItem) (auth : AuthDetails)
    (hauth : _get_auth_details cfg (escape_filter_chars u) = .ok auth)
    (helig : (entry.has_raw_attributes && entry.has_dn) = true)
    (htu : pyTruthy (lookupAttr entry.raw_attributes cfg.USERNAME_ATTRIBUTE) = true)
    (hte : pyTruthy (lookupAttr entry.raw_attributes cfg.EMAIL_ATTRIBUTE) = true)
    (htf : pyTruthy (lookupAttr entry.raw_attributes cfg.FULL_NAME_ATTRIBUTE) = true)
    (hbad : utf8Decode (firstValue (lookupAttr entry.raw_attributes cfg.USERNAME_ATTRIBUTE)) = none ∨
            utf8Decode (firstValue (lookupAttr entry.raw_attributes cfg.EMAIL_ATTRIBUTE)) = none ∨
            utf8Decode (firstValue (lookupAttr entry.raw_attributes cfg.FULL_NAME_ATTRIBUTE)) = none) :
    (login cfg (oracleAllOk [entry]) u p).1 = .error .unicodeDecodeError ∧
    (∀ m, PyError.unicodeDecodeError ≠ PyError.ldapConnectionError m ∧
          PyError.unicodeDecodeError ≠ PyError.ldapUserLoginError m) := by
  constructor
  · rcases hbad with h | h | h
    · simp [login, oracleAllOk, hauth, helig, htu, hte, htf, h]
    · cases hdu : utf8Decode (firstValue (lookupAttr entry.raw_attributes cfg.USERNAME_ATTRIBUTE)) with
      | none => simp [login, oracleAllOk, hauth, helig, htu, hte, htf, hdu]
      | some su => simp [login, oracleAllOk, hauth, helig, htu, hte, htf, hdu, h]
    · cases hdu : utf8Decode (firstValue (lookupAttr entry.raw_attributes cfg.USERNAME_ATTRIBUTE)) with
      | none => simp [login, oracleAllOk, hauth, helig, htu, hte, htf, hdu]
      | some su =>
        cases hde : utf8Decode (firstValue (lookupAttr entry.raw_attributes cfg.EMAIL_ATTRIBUTE)) with
        | none => simp [login, oracleAllOk, hauth, helig, htu, hte, htf, hdu, hde]
        | some se => simp [login, oracleAllOk, hauth, helig, htu, hte, htf, hdu, hde, h]
  · intro m
    exact ⟨fun h => PyError.noConfusion h, fun h => PyError.noConfusion h⟩

/-- Witness for C4 at a concrete input: default configuration, anonymous
search bind, and a directory answering the search with no entries. -/
theorem C4_cardinality_rejection_witness :
    _get_auth_details defaultConfig (escape_filter_chars "alice") =
      .ok ⟨none, none, Authentication.ANONYMOUS⟩ ∧
    (login defaultConfig (oracleAllOk []) "alice" "pw").1 =
      .error (.ldapUserLoginError "LDAP login not found") :=
  ⟨rfl,
   ((C4_cardinality_rejection defaultConfig "alice" "pw" []
       ⟨none, none, Authentication.ANONYMOUS⟩ rfl).1 rfl).1⟩

/-- Witness for C5 at a concrete input: the fully-attributed alice entry is
accepted and the decoded triple is returned. -/
theorem C5_attribute_gate_and_extraction_witness :
    (aliceEntry.has_raw_attributes && aliceEntry.has_dn) = true ∧
    (login defaultConfig (oracleAllOk [aliceEntry]) "alice" "pw").1 =
      .ok ("alice", "alice@example.com", "Alice A") :=
  ⟨rfl,
   (C5_attribute_gate_and_extraction defaultConfig "alice" "pw" aliceEntry
       ⟨none, none, Authentication.ANONYMOUS⟩ rfl rfl).2
     "alice" "alice@example.com" "Alice A" rfl rfl rfl rfl rfl rfl⟩

/-- Witness for C6 at a concrete input: an all-accepting directory with the
single alice entry, whose verification bind succeeds. -/
theorem C6_single_verification_bind_witness :
    (aliceEntry.has_raw_attributes && aliceEntry.has_dn) = true ∧
    (login defaultConfig ⟨fun _ => .ok (), fun _ => .ok [aliceEntry]⟩ "alice" "pw").1 =
      .ok ("alice", "alice@example.com", "Alice A") :=
  ⟨rfl,
   (C6_single_verification_bind defaultConfig (fun _ => .ok ()) "alice" "pw"
       "alice" "alice@example.com" "Alice A" aliceEntry
       ⟨none, none, Authentication.ANONYMOUS⟩ rfl rfl rfl rfl rfl rfl rfl rfl rfl).2.1 rfl⟩

/-- Witness for C7 at concrete inputs: a directory refusing connections yields
the connection-error kind; one accepting connections but failing the search
yields the login-error kind. -/
theorem C7_error_kind_classification_witness :
    _get_auth_details defaultConfig (escape_filter_chars "alice") =
      .ok ⟨none, none, Authentication.ANONYMOUS⟩ ∧
    (login defaultConfig ⟨fun _ => .error "server unreachable", fun _ => .ok []⟩
        "alice" "pw").1 =
      .error (.ldapConnectionError ("Error connecting to LDAP server: " ++ "server unreachable")) ∧
    (login defaultConfig ⟨fun _ => .ok (), fun _ => .error "search failed"⟩
        "alice" "pw").1 =
      .error (.ldapUserLoginError ("LDAP login incorrect: " ++ "search failed")) :=
  ⟨rfl,
   (C7_error_kind_classification defaultConfig (fun _ => .error "server unreachable")
       (fun _ => .ok []) "alice" "pw" "server unreachable"
       ⟨none, none, Authentication.ANONYMOUS⟩ rfl).1 (fun _ => rfl),
   (C7_error_kind_classification defaultConfig (fun _ => .ok ())
       (fun _ => .error "search failed") "alice" "pw" "search failed"
       ⟨none, none, Authentication.ANONYMOUS⟩ rfl).2 (fun _ => rfl) (fun _ => rfl)⟩

/-- Witness for C8 at a concrete input: default configuration and an
all-accepting directory answering the search with no entries. -/
theorem C8_search_request_parameters_witness :
    _get_auth_details defaultConfig (escape_filter_chars "alice") =
      .ok ⟨none, none, Authentication.ANONYMOUS⟩ ∧
    (login defaultConfig ⟨fun _ => .ok (), fun _ => .ok []⟩ "alice" "pw").2.filterMap
        getSearchReq =
      [⟨defaultConfig.SEARCH_BASE, build_search_filter defaultConfig (escape_filter_chars "alice"),
        Scope.SUBTREE,
        [defaultConfig.USERNAME_ATTRIBUTE, defaultConfig.EMAIL_ATTRIBUTE,
         defaultConfig.FULL_NAME_ATTRIBUTE], 5⟩] :=
  ⟨rfl,
   (C8_search_request_parameters defaultConfig (fun _ => .ok []) "alice" "pw"
       ⟨none, none, Authentication.ANONYMOUS⟩ rfl).1⟩

/-- Witness for C10 at a concrete input: an entry whose `uid` first value is
the invalid UTF-8 byte `0xFF`. -/
theorem C10_invalid_utf8_outside_taxonomy_witness :
    utf8Decode (firstValue (lookupAttr badUtf8Entry.raw_attributes
        defaultConfig.USERNAME_ATTRIBUTE)) = none ∧
    (login defaultConfig (oracleAllOk [badUtf8Entry]) "x" "pw").1 =
      .error .unicodeDecodeError :=
  ⟨rfl,
   (C10_invalid_utf8_outside_taxonomy defaultConfig "x" "pw" badUtf8Entry
       ⟨none, none, Authentication.ANONYMOUS⟩ rfl rfl rfl rfl rfl (Or.inl rfl)).1⟩

end LdapAuth
